import Mathlib

/-!
Verification development for the meteor orbit engine of WesternMeteorPyLib
(`wmpl/Trajectory/Orbit.py`).

The shallow embedding works over the rational numbers.  The transcendental
floating-point primitives used by the source (`np.sqrt`, `np.sin`, `np.cos`,
`np.tan`, `np.arccos`, `np.arctan2`, `np.pi`) are abstracted as fields of a
`MathOps` parameter, and the external collaborator routines of
`wmpl.Utils.*` (which are outside the verified sources and are specified by
the design document only at their interface boundary) are abstracted as
fields of a `Collab` parameter.  All control flow, branching, field
assignment and arithmetic of `calcOrbit` itself is translated directly from
the source.  The Python float modulo `x % y` is modelled exactly for real
arithmetic as `x - y * floor (x / y)`.  The single place where the source
inspects NaN (`np.isnan(dt_perihelion)`, produced by `a ** 1.5` on a
negative semi-major axis) is modelled with an `Option`, `none` standing for
NaN.
-/

/-- Three dimensional vector with rational components, standing for a numpy
length-3 array. -/
structure Vec3 where
  x : ℚ
  y : ℚ
  z : ℚ
deriving DecidableEq

instance : Add Vec3 := ⟨fun a b => ⟨a.x + b.x, a.y + b.y, a.z + b.z⟩⟩

instance : Sub Vec3 := ⟨fun a b => ⟨a.x - b.x, a.y - b.y, a.z - b.z⟩⟩

/-- Scalar multiplication of a numpy vector. -/
def smulV (c : ℚ) (v : Vec3) : Vec3 := ⟨c * v.x, c * v.y, c * v.z⟩

/-- Division of a numpy vector by a scalar. -/
def divV (v : Vec3) (c : ℚ) : Vec3 := ⟨v.x / c, v.y / c, v.z / c⟩

/-- Dot product, standing for `np.dot`. -/
def dotV (a b : Vec3) : ℚ := a.x * b.x + a.y * b.y + a.z * b.z

/-- Cross product, standing for `np.cross`. -/
def crossV (a b : Vec3) : Vec3 :=
  ⟨a.y * b.z - a.z * b.y, a.z * b.x - a.x * b.z, a.x * b.y - a.y * b.x⟩

/-- Primitive real-valued routines of numpy that have no exact rational
counterpart.  They are abstracted as parameters of the embedding; every
theorem below holds for an arbitrary interpretation (in particular for the
intended real-analytic one). -/
structure MathOps where
  sqrt : ℚ → ℚ
  sin : ℚ → ℚ
  cos : ℚ → ℚ
  tan : ℚ → ℚ
  arccos : ℚ → ℚ
  arctan2 : ℚ → ℚ → ℚ
  pi : ℚ

/-- Modelled from the spec: `wmpl.Utils.Math.vectMag`, the Euclidean
magnitude of a vector (the design document writes it as an absolute value,
for instance the escape velocity denominator uses the magnitude of the
reference position vector).  The square root is taken from the primitive
parameter block. -/
def vectMag (ops : MathOps) (v : Vec3) : ℚ :=
  ops.sqrt (v.x ^ 2 + v.y ^ 2 + v.z ^ 2)

/-- Modelled from the spec: `wmpl.Utils.Math.vectNorm`, the unit vector in
the direction of the argument. -/
def vectNorm (ops : MathOps) (v : Vec3) : Vec3 :=
  divV v (vectMag ops v)

/-- External collaborator capabilities consumed by `calcOrbit`
(section 6 of the design document), together with the physical constants
imported from `wmpl.Utils.TrajConversions`.  They live outside the verified
sources, so they are abstracted as parameters of the embedding. -/
structure Collab where
  jd2DynamicalTimeJD : ℚ → ℚ
  cartesian2Geo : ℚ → ℚ → ℚ → ℚ → ℚ × ℚ × ℚ
  altAz2RADec : ℚ → ℚ → ℚ → ℚ → ℚ → ℚ × ℚ
  raDec2AltAz : ℚ → ℚ → ℚ → ℚ → ℚ → ℚ × ℚ
  eci2RaDec : Vec3 → ℚ × ℚ
  jd2LST : ℚ → ℚ → ℚ
  equatorialCoordPrecession : ℚ → ℚ → ℚ → ℚ → ℚ × ℚ
  raDec2Ecliptic : ℚ → ℚ → ℚ → ℚ × ℚ
  cartesianToSpherical : Vec3 → ℚ × ℚ × ℚ
  sphericalToCartesian : ℚ → ℚ → ℚ → Vec3
  earthPosVel : ℚ → Vec3 × Vec3
  rotateVector : Vec3 → Vec3 → ℚ → Vec3
  eclipticToRectangularVelocityVect : ℚ → ℚ → ℚ → Vec3
  correctedEclipticCoord : ℚ → ℚ → ℚ → Vec3 → ℚ × ℚ × Vec3
  jd2SolLonJPL : ℚ → ℚ
  jd2Date : ℚ → ℚ
  J2000_days : ℚ
  J2000_OBLIQUITY : ℚ
  SUN_MU : ℚ
  AU : ℚ
  G : ℚ
  SUN_MASS : ℚ
  SIDEREAL_YEAR : ℚ

/-- Input bundle of `calcOrbit(radiant_eci, v_init, v_avg, eci_ref, jd_ref,
stations_fixed, reference_init, rotation_correction)`, together with the
abstracted primitive and collaborator blocks. -/
structure Inp where
  C : Collab
  ops : MathOps
  radiant_eci : Vec3
  v_init : ℚ
  v_avg : ℚ
  eci_ref : Vec3
  jd_ref : ℚ
  stations_fixed : Bool
  reference_init : Bool
  rotation_correction : Bool

/-- Python float modulo `x % y`, which for a positive modulus returns a
representative in `[0, y)`: exactly `x - y * floor (x / y)` in exact
arithmetic. -/
def pymod (x y : ℚ) : ℚ := x - y * (⌊x / y⌋ : ℚ)

theorem pymod_nonneg (x y : ℚ) (hy : 0 < y) : 0 ≤ pymod x y := by
  have hfl : ((⌊x / y⌋ : ℤ) : ℚ) ≤ x / y := Int.floor_le _
  have hyx : y * (x / y) = x := by field_simp
  have h2 := mul_le_mul_of_nonneg_left hfl (le_of_lt hy)
  rw [hyx] at h2
  unfold pymod
  linarith

theorem pymod_lt (x y : ℚ) (hy : 0 < y) : pymod x y < y := by
  have hfu : x / y < (⌊x / y⌋ : ℚ) + 1 := Int.lt_floor_add_one _
  have hyx : y * (x / y) = x := by field_simp
  have h2 := mul_lt_mul_of_pos_left hfu hy
  rw [mul_add, mul_one, hyx] at h2
  unfold pymod
  linarith

theorem pymod_zero (y : ℚ) : pymod 0 y = 0 := by
  simp [pymod]

/-- Geocentric latitude of the reference trajectory point:
`np.arctan2(eci_z, np.sqrt(eci_x**2 + eci_y**2))`. -/
def latGeocentric (I : Inp) : ℚ :=
  I.ops.arctan2 I.eci_ref.z (I.ops.sqrt (I.eci_ref.x ^ 2 + I.eci_ref.y ^ 2))

/-- Dynamical Julian date: `jd2DynamicalTimeJD(jd_ref)`. -/
def jdDyn (I : Inp) : ℚ := I.C.jd2DynamicalTimeJD I.jd_ref

/-- Geographical coordinates of the reference position:
`cartesian2Geo(jd_ref, *eci_ref)` returning `(lat_ref, lon_ref, ht_ref)`. -/
def geoRef (I : Inp) : ℚ × ℚ × ℚ :=
  I.C.cartesian2Geo I.jd_ref I.eci_ref.x I.eci_ref.y I.eci_ref.z

def latRef (I : Inp) : ℚ := (geoRef I).1

def lonRef (I : Inp) : ℚ := (geoRef I).2.1

def htRef (I : Inp) : ℚ := (geoRef I).2.2

/-- Linear speed of the Earth rotation at the reference point:
`2*np.pi*vectMag(eci_ref)*np.cos(lat_geocentric)/86164.09053`. -/
def vE (I : Inp) : ℚ :=
  2 * I.ops.pi * vectMag I.ops I.eci_ref * I.ops.cos (latGeocentric I) / 86164.09053

/-- Right ascension of due east at the reference site:
first component of `altAz2RADec(pi/2, 0, jd_ref, lat_ref, lon_ref)`. -/
def raEast (I : Inp) : ℚ :=
  (I.C.altAz2RADec (I.ops.pi / 2) 0 I.jd_ref (latRef I) (lonRef I)).1

/-- Raw reference velocity vector: `v_init*radiant_eci` when the reference
point is the initial point, `v_avg*radiant_eci` otherwise. -/
def vRefVect (I : Inp) : Vec3 :=
  if I.reference_init then smulV I.v_init I.radiant_eci
  else smulV I.v_avg I.radiant_eci

/-- Stations-fixed rotation correction: subtract the east component of the
rotation velocity from the x and y components, leave z unchanged
(source lines 461-466). -/
def rotCorrSub (ops : MathOps) (v : Vec3) (v_e ra_east : ℚ) : Vec3 :=
  ⟨v.x - v_e * ops.cos ra_east, v.y - v_e * ops.sin ra_east, v.z⟩

/-- Derotated (no Earth rotation) reporting vector: add the east component
of the rotation velocity back to the x and y components, leave z unchanged
(source lines 487-492). -/
def rotCorrAdd (ops : MathOps) (v : Vec3) (v_e ra_east : ℚ) : Vec3 :=
  ⟨v.x + v_e * ops.cos ra_east, v.y + v_e * ops.sin ra_east, v.z⟩

/-- Corrected reference velocity vector `v_ref_corr`: with fixed stations
the rotation is subtracted from the raw vector, with moving stations the
raw vector is used unchanged. -/
def vRefCorr (I : Inp) : Vec3 :=
  if I.stations_fixed then
    rotCorrSub I.ops (vRefVect I) (vE I) (raEast I)
  else vRefVect I

/-- Derotated reporting vector `v_ref_nocorr` computed in the moving
stations branch. -/
def vRefNocorr (I : Inp) : Vec3 :=
  rotCorrAdd I.ops (vRefVect I) (vE I) (raEast I)

/-- Corrected scalar initial velocity `v_init_corr` (source lines 513-537):
magnitude of the corrected vector when the reference point is the initial
point and the rotation correction is requested; the original `v_init` when
no rotation correction is requested; `|v_ref_corr| + v_init - v_avg` when
the reference point is the average point and the rotation correction is
requested. -/
def vInitCorr (I : Inp) : ℚ :=
  if I.reference_init then
    (if I.rotation_correction then vectMag I.ops (vRefCorr I) else I.v_init)
  else
    (if I.rotation_correction then vectMag I.ops (vRefCorr I) + I.v_init - I.v_avg
     else I.v_init)

/-- Square of the local escape velocity `(2*6.67408*5.9722)*1e13/vectMag(eci_ref)`
exactly as written in the gate of the source (line 562). -/
def escVelSq (I : Inp) : ℚ :=
  (2 * 6.67408 * 5.9722) * 1e13 / vectMag I.ops I.eci_ref

/-- Escape velocity gate of the source: the geocentric and heliocentric
quantities are computed exactly when the squared corrected initial velocity
strictly exceeds the squared local escape velocity. -/
abbrev feasible (I : Inp) : Prop := vInitCorr I ^ 2 > escVelSq I

/-- Geocentric velocity (source line 568):
`np.sqrt(v_init_corr**2 - (2*6.67408*5.9722)*1e13/vectMag(eci_ref))`. -/
def vG (I : Inp) : ℚ := I.ops.sqrt (vInitCorr I ^ 2 - escVelSq I)

/-- Radiant corrected for the Earth rotation:
`eci2RaDec(vectNorm(v_ref_corr))`. -/
def raDecCorr (I : Inp) : ℚ × ℚ := I.C.eci2RaDec (vectNorm I.ops (vRefCorr I))

/-- Local sidereal time of the reference position:
`np.radians(jd2LST(jd_ref, np.degrees(lon_ref))[0])`.  The degree and
radian conversions use the primitive value of pi. -/
def lstRef (I : Inp) : ℚ :=
  I.C.jd2LST I.jd_ref (lonRef I * 180 / I.ops.pi) * I.ops.pi / 180

/-- Apparent zenith angle (source lines 579-580). -/
def zcOf (I : Inp) : ℚ :=
  I.ops.arccos (I.ops.sin (raDecCorr I).2 * I.ops.sin (latGeocentric I)
    + I.ops.cos (raDecCorr I).2 * I.ops.cos (latGeocentric I)
      * I.ops.cos (lstRef I - (raDecCorr I).1))

/-- Zenith attraction correction (source line 583). -/
def deltaZc (I : Inp) : ℚ :=
  2 * I.ops.arctan2 ((vInitCorr I - vG I) * I.ops.tan (zcOf I / 2)) (vInitCorr I + vG I)

/-- Zenith distance of the geocentric radiant (source line 586). -/
def zgOf (I : Inp) : ℚ := zcOf I + |deltaZc I|

/-- Azimuth recovered from the corrected radiant (source line 596). -/
def azimuthCorr (I : Inp) : ℚ :=
  (I.C.raDec2AltAz (raDecCorr I).1 (raDecCorr I).2 I.jd_ref (latGeocentric I) (lonRef I)).1

/-- Geocentric radiant in the epoch of date (source line 599). -/
def raDecG0 (I : Inp) : ℚ × ℚ :=
  I.C.altAz2RADec (azimuthCorr I) (I.ops.pi / 2 - zgOf I) I.jd_ref (latGeocentric I) (lonRef I)

/-- Reference position precessed to J2000 (source lines 605-612):
convert to spherical, precess, convert back to rectangular. -/
def eciRefJ (I : Inp) : Vec3 :=
  let s := I.C.cartesianToSpherical I.eci_ref
  let p := I.C.equatorialCoordPrecession I.jd_ref I.C.J2000_days s.2.2 s.2.1
  I.C.sphericalToCartesian s.1 p.2 p.1

/-- Geocentric radiant precessed to J2000 (source line 617). -/
def raDecG (I : Inp) : ℚ × ℚ :=
  I.C.equatorialCoordPrecession I.jd_ref I.C.J2000_days (raDecG0 I).1 (raDecG0 I).2

/-- Ecliptic coordinates of the geocentric radiant, J2000 (source line 621). -/
def lbG (I : Inp) : ℚ × ℚ :=
  I.C.raDec2Ecliptic I.C.J2000_days (raDecG I).1 (raDecG I).2

/-- Heliocentric ecliptic position of the Earth from the ephemeris. -/
def earthPos (I : Inp) : Vec3 := (I.C.earthPosVel (jdDyn I)).1

/-- Heliocentric ecliptic velocity of the Earth from the ephemeris. -/
def earthVel (I : Inp) : Vec3 := (I.C.earthPosVel (jdDyn I)).2

/-- Earth position rotated to equatorial FK5 (source line 638). -/
def earthPosEq (I : Inp) : Vec3 :=
  I.C.rotateVector (earthPos I) ⟨1, 0, 0⟩ I.C.J2000_OBLIQUITY

/-- Heliocentric ecliptic position of the meteor (source lines 648-655):
add the precessed reference position in kilometers to the Earth position
and rotate back to the ecliptic frame. -/
def meteorPos (I : Inp) : Vec3 :=
  I.C.rotateVector (earthPosEq I + divV (eciRefJ I) 1000) ⟨1, 0, 0⟩ (-I.C.J2000_OBLIQUITY)

/-- Heliocentric velocity of the meteor in kilometers per second
(source line 664). -/
def vH (I : Inp) : Vec3 :=
  earthVel I + I.C.eclipticToRectangularVelocityVect (lbG I).1 (lbG I).2 (vG I / 1000)

/-- Sato and Watanabe corrected ecliptic coordinates and velocity vector
(source line 672): `(L_h, B_h, met_v_h)`. -/
def lbhVh (I : Inp) : ℚ × ℚ × Vec3 :=
  I.C.correctedEclipticCoord (lbG I).1 (lbG I).2 (vG I / 1000) (earthVel I)

/-- Solar longitude at the dynamical time (source line 676). -/
def laSun (I : Inp) : ℚ := I.C.jd2SolLonJPL (jdDyn I)

/-- Input bundle of the Keplerian element solver: the primitive block, the
physical constants and the heliocentric position and velocity vectors. -/
structure KepIn where
  ops : MathOps
  SUN_MU : ℚ
  AU : ℚ
  G : ℚ
  SUN_MASS : ℚ
  SIDEREAL_YEAR : ℚ
  meteor_pos : Vec3
  v_h : Vec3

/-- Keplerian inputs produced by `calcOrbit` for its given inputs. -/
def kepInOf (I : Inp) : KepIn :=
  ⟨I.ops, I.C.SUN_MU, I.C.AU, I.C.G, I.C.SUN_MASS, I.C.SIDEREAL_YEAR, meteorPos I, vH I⟩

/-- Specific orbital energy (source line 682):
`vectMag(v_h)**2/2 - SUN_MU/vectMag(meteor_pos)`. -/
def epsilonOf (k : KepIn) : ℚ :=
  vectMag k.ops k.v_h ^ 2 / 2 - k.SUN_MU / vectMag k.ops k.meteor_pos

/-- Semi-major axis in astronomical units (source line 685). -/
def aOf (k : KepIn) : ℚ := -k.SUN_MU / (2 * epsilonOf k * k.AU)

/-- Mean motion in radians per day (source line 688). -/
def nOf (k : KepIn) : ℚ :=
  k.ops.sqrt (k.G * k.SUN_MASS / (|aOf k| * k.AU * 1000) ^ 3) * 86400

/-- Orbital period in sidereal years (source line 692). -/
def TOf (k : KepIn) : ℚ :=
  2 * k.ops.pi * k.ops.sqrt ((aOf k * k.AU) ^ 3 / k.SUN_MU) / (86400 * k.SIDEREAL_YEAR)

/-- Orbit angular momentum vector (source line 696). -/
def hVect (k : KepIn) : Vec3 := crossV k.meteor_pos k.v_h

/-- Inclination (source line 699). -/
def inclOf (k : KepIn) : ℚ := k.ops.arccos ((hVect k).z / vectMag k.ops (hVect k))

/-- Eccentricity vector (source line 703):
`np.cross(v_h, h_vect)/SUN_MU - vectNorm(meteor_pos)`. -/
def eVect (k : KepIn) : Vec3 :=
  divV (crossV k.v_h (hVect k)) k.SUN_MU - vectNorm k.ops k.meteor_pos

/-- Eccentricity (source line 704). -/
def eccOf (k : KepIn) : ℚ := vectMag k.ops (eVect k)

/-- Perihelion distance (source lines 708-711): the angular momentum
formula in the exactly parabolic case, `a*(1 - e)` otherwise. -/
def qOf (k : KepIn) : ℚ :=
  if eccOf k = 1 then
    (vectMag k.ops k.meteor_pos + dotV (eVect k) k.meteor_pos) / (1 + vectMag k.ops (eVect k))
  else aOf k * (1 - eccOf k)

/-- Aphelion distance (source line 714). -/
def QOf (k : KepIn) : ℚ := aOf k * (1 + eccOf k)

/-- Vector pointing to the ascending node (source line 721):
cross product of the z unit vector and the angular momentum vector. -/
def nVect (k : KepIn) : Vec3 := crossV ⟨0, 0, 1⟩ (hVect k)

/-- Ascending node before reduction (source lines 724-727): zero when the
node vector vanishes, `arctan2(n_vect[1], n_vect[0])` otherwise. -/
def node0Of (k : KepIn) : ℚ :=
  if vectMag k.ops (nVect k) = 0 then 0
  else k.ops.arctan2 (nVect k).y (nVect k).x

/-- Ascending node reduced modulo two pi (source line 729). -/
def nodeOf (k : KepIn) : ℚ := pymod (node0Of k) (2 * k.ops.pi)

/-- Argument of perihelion before reduction (source lines 733-740). -/
def peri0Of (k : KepIn) : ℚ :=
  if vectMag k.ops (nVect k) ≠ 0 then
    (if (eVect k).z < 0 then
      2 * k.ops.pi - k.ops.arccos (dotV (nVect k) (eVect k)
        / (vectMag k.ops (nVect k) * vectMag k.ops (eVect k)))
     else
      k.ops.arccos (dotV (nVect k) (eVect k)
        / (vectMag k.ops (nVect k) * vectMag k.ops (eVect k))))
  else k.ops.arccos ((eVect k).x / vectMag k.ops (eVect k))

/-- Argument of perihelion reduced modulo two pi (source line 742). -/
def periOf (k : KepIn) : ℚ := pymod (peri0Of k) (2 * k.ops.pi)

/-- Longitude of perihelion (source line 747). -/
def piLonOf (k : KepIn) : ℚ := pymod (nodeOf k + periOf k) (2 * k.ops.pi)

/-- True anomaly before reduction (source lines 751-753): sign flipped to
`2*pi - nu` after perihelion, that is when `dot(meteor_pos, v_h) < 0`. -/
def trueAnom0Of (k : KepIn) : ℚ :=
  let t := k.ops.arccos (dotV (eVect k) k.meteor_pos
    / (vectMag k.ops (eVect k) * vectMag k.ops k.meteor_pos))
  if dotV k.meteor_pos k.v_h < 0 then 2 * k.ops.pi - t else t

/-- True anomaly reduced modulo two pi (source line 755). -/
def trueAnomOf (k : KepIn) : ℚ := pymod (trueAnom0Of k) (2 * k.ops.pi)

/-- Eccentric anomaly (source lines 761-762). -/
def eccAnomOf (k : KepIn) : ℚ :=
  k.ops.arctan2 (k.ops.sqrt (1 - eccOf k ^ 2) * k.ops.sin (trueAnomOf k))
    (eccOf k + k.ops.cos (trueAnomOf k))

/-- Mean anomaly reduced modulo two pi (source lines 765-766). -/
def meanAnomOf (k : KepIn) : ℚ :=
  pymod (eccAnomOf k - eccOf k * k.ops.sin (eccAnomOf k)) (2 * k.ops.pi)

/-- Days since the last perihelion passage (source line 769):
`(mean_anomaly*a**(3/2))/0.01720209895`.  In numpy the float power
`a ** 1.5` is NaN exactly when `a` is negative, and the NaN propagates
through the product and quotient; `none` models that NaN. -/
def dtPerihelionOf (k : KepIn) : Option ℚ :=
  if aOf k < 0 then none
  else some (meanAnomOf k * k.ops.sqrt (aOf k ^ 3) / 0.01720209895)

/-- Tisserand parameter with respect to Jupiter (source line 782). -/
def TjOf (k : KepIn) : ℚ :=
  2 * k.ops.sqrt ((1 - eccOf k ^ 2) * aOf k / 5.204267) * k.ops.cos (inclOf k)
    + 5.204267 / aOf k

/-- Result entity of the computation, mirroring the `Orbit` class: every
field starts out as `None` in `__init__` and is only assigned by
`calcOrbit`, so each field is an `Option`, defaulting to `none`. -/
structure Orbit where
  ra : Option ℚ := none
  dec : Option ℚ := none
  azimuth_apparent : Option ℚ := none
  elevation_apparent : Option ℚ := none
  v_avg : Option ℚ := none
  v_init : Option ℚ := none
  ra_norot : Option ℚ := none
  dec_norot : Option ℚ := none
  azimuth_apparent_norot : Option ℚ := none
  elevation_apparent_norot : Option ℚ := none
  v_avg_norot : Option ℚ := none
  v_init_norot : Option ℚ := none
  jd_ref : Option ℚ := none
  jd_dyn : Option ℚ := none
  lst_ref : Option ℚ := none
  lon_ref : Option ℚ := none
  lat_ref : Option ℚ := none
  ht_ref : Option ℚ := none
  lat_geocentric : Option ℚ := none
  zc : Option ℚ := none
  zg : Option ℚ := none
  v_inf : Option ℚ := none
  v_g : Option ℚ := none
  ra_g : Option ℚ := none
  dec_g : Option ℚ := none
  L_g : Option ℚ := none
  B_g : Option ℚ := none
  meteor_pos : Option Vec3 := none
  v_h : Option ℚ := none
  v_h_x : Option ℚ := none
  v_h_y : Option ℚ := none
  v_h_z : Option ℚ := none
  L_h : Option ℚ := none
  B_h : Option ℚ := none
  la_sun : Option ℚ := none
  a : Option ℚ := none
  e : Option ℚ := none
  i : Option ℚ := none
  peri : Option ℚ := none
  node : Option ℚ := none
  pi : Option ℚ := none
  q : Option ℚ := none
  Q : Option ℚ := none
  true_anomaly : Option ℚ := none
  eccentric_anomaly : Option ℚ := none
  mean_anomaly : Option ℚ := none
  last_perihelion : Option ℚ := none
  n : Option ℚ := none
  Tj : Option ℚ := none
  T : Option ℚ := none

/-- Apparent radiant from the radiant state vector:
`eci2RaDec(radiant_eci)`. -/
def raDecApp (I : Inp) : ℚ × ℚ := I.C.eci2RaDec I.radiant_eci

/-- Apparent azimuth and altitude of the apparent radiant. -/
def azElApp (I : Inp) : ℚ × ℚ :=
  I.C.raDec2AltAz (raDecApp I).1 (raDecApp I).2 I.jd_ref (latRef I) (lonRef I)

/-- Reporting quantities with the Earth rotation excluded, as the tuple
`(ra_norot, dec_norot, azimuth_norot, elevation_norot, v_avg_norot,
v_init_norot)`.  With fixed stations the inputs are already ground fixed
(source lines 443-456); with moving stations a derotated vector is built
purely for reporting (source lines 487-499). -/
def norotOf (I : Inp) : ℚ × ℚ × ℚ × ℚ × ℚ × ℚ :=
  if I.stations_fixed then
    let rd := I.C.eci2RaDec I.radiant_eci
    let azel := I.C.raDec2AltAz rd.1 rd.2 I.jd_ref (latRef I) (lonRef I)
    (rd.1, rd.2, azel.1, azel.2, I.v_avg, I.v_init)
  else
    let vnc := vRefNocorr I
    let rd := I.C.eci2RaDec (vectNorm I.ops vnc)
    let azel := I.C.raDec2AltAz rd.1 rd.2 I.jd_ref (latRef I) (lonRef I)
    let vin := vectMag I.ops vnc
    (rd.1, rd.2, azel.1, azel.2, vin - I.v_init + I.v_avg, vin)

/-- Fields of the result that the source assigns before the escape velocity
gate (source lines 443-499 and 541-558): both apparent radiant families,
the reference geometry other than the dynamical date and the sidereal time,
and the velocity at infinity. -/
def orbBase (I : Inp) : Orbit :=
  { ra := some (raDecApp I).1
    dec := some (raDecApp I).2
    azimuth_apparent := some (azElApp I).1
    elevation_apparent := some (azElApp I).2
    v_avg := some I.v_avg
    v_init := some I.v_init
    ra_norot := some (norotOf I).1
    dec_norot := some (norotOf I).2.1
    azimuth_apparent_norot := some (norotOf I).2.2.1
    elevation_apparent_norot := some (norotOf I).2.2.2.1
    v_avg_norot := some (norotOf I).2.2.2.2.1
    v_init_norot := some (norotOf I).2.2.2.2.2
    jd_ref := some I.jd_ref
    lon_ref := some (lonRef I)
    lat_ref := some (latRef I)
    ht_ref := some (htRef I)
    lat_geocentric := some (latGeocentric I)
    v_inf := some (vInitCorr I) }

/-- Fields assigned inside the escape velocity gate (source lines 562-824),
extending the base assignment. -/
def orbFeasible (I : Inp) : Orbit :=
  { orbBase I with
    lst_ref := some (lstRef I)
    jd_dyn := some (jdDyn I)
    v_g := some (vG I)
    ra_g := some (raDecG I).1
    dec_g := some (raDecG I).2
    meteor_pos := some (meteorPos I)
    L_g := some (lbG I).1
    B_g := some (lbG I).2
    v_h_x := some (lbhVh I).2.2.x
    v_h_y := some (lbhVh I).2.2.y
    v_h_z := some (lbhVh I).2.2.z
    L_h := some (lbhVh I).1
    B_h := some (lbhVh I).2.1
    zc := some (zcOf I)
    zg := some (zgOf I)
    v_h := some (vectMag I.ops (vH I) * 1000)
    la_sun := some (laSun I)
    a := some (aOf (kepInOf I))
    e := some (eccOf (kepInOf I))
    i := some (inclOf (kepInOf I))
    peri := some (periOf (kepInOf I))
    node := some (nodeOf (kepInOf I))
    pi := some (piLonOf (kepInOf I))
    q := some (qOf (kepInOf I))
    Q := some (QOf (kepInOf I))
    true_anomaly := some (trueAnomOf (kepInOf I))
    eccentric_anomaly := some (eccAnomOf (kepInOf I))
    mean_anomaly := some (meanAnomOf (kepInOf I))
    last_perihelion :=
      (dtPerihelionOf (kepInOf I)).map (fun dt => I.C.jd2Date (jdDyn I - dt))
    n := some (nOf (kepInOf I))
    T := some (TOf (kepInOf I))
    Tj := some (TjOf (kepInOf I)) }

/-- Shallow embedding of `calcOrbit`: the escape velocity gate selects
between the fully populated result and the base result whose geocentric
and heliocentric family is left unset.  The function is total: the
infeasible case is a normal return, not an exception. -/
def calcOrbit (I : Inp) : Orbit :=
  if vInitCorr I ^ 2 > escVelSq I then orbFeasible I else orbBase I

/-- Uncertainty companion object: attribute lookup by name, `none` when the
object does not carry the attribute (`hasattr` is false). -/
abbrev Unc := String → Option ℚ

/-- Python attribute access `getattr(u, std_name)`, raising when the
attribute is absent. -/
def getattrE (u : Unc) (std_name : String) : Except String ℚ :=
  match u std_name with
  | some v => Except.ok v
  | none => Except.error ("AttributeError")

/-- Formatted uncertainty suffix, translated from the internal function
`_uncer` of `Orbit.__repr__` (source lines 183-206): when `deg` is set the
multiplier is scaled by `np.degrees(1.0)`; the suffix is produced only when
an uncertainty object is given and carries the attribute, and is the empty
string otherwise.  The numeric text formatting is abstracted as `fmt`. -/
def uncer (ops : MathOps) (fmt : ℚ → String) (uncertainties : Option Unc)
    (std_name : String) (multi : ℚ) (deg : Bool) : String :=
  let multi2 := if deg then multi * (180 / ops.pi) else multi
  match uncertainties with
  | none => ""
  | some u =>
    match u std_name with
    | some v => " +/- " ++ fmt (v * multi2)
    | none => ""

/-- Exception-aware variant of `uncer`, mirroring the source exactly: the
attribute is read with `getattr` only behind the `hasattr` guard, so the
error constructor is unreachable. -/
def uncerE (ops : MathOps) (fmt : ℚ → String) (uncertainties : Option Unc)
    (std_name : String) (multi : ℚ) (deg : Bool) : Except String String :=
  let multi2 := if deg then multi * (180 / ops.pi) else multi
  match uncertainties with
  | none => Except.ok ("")
  | some u =>
    if (u std_name).isSome then
      match getattrE u std_name with
      | Except.ok v => Except.ok (" +/- " ++ fmt (v * multi2))
      | Except.error msg => Except.error msg
    else Except.ok ("")

/-- Reading an optional field for formatting: formatting `None` with a
numeric format specifier raises a TypeError in Python, modelled by the
error constructor. -/
def getQE : Option ℚ → Except String ℚ
  | some v => Except.ok v
  | none => Except.error ("TypeError")

/-- Textual report of an orbit, translated from `Orbit.__repr__`
(source lines 209-345).  Numeric text formatting is abstracted as `fmt`
(rationals) and `fmtInt` (integers), the calendar conversion
`datetime2JD` as `d2j`, and the shower association collaborator as
`shower`, returning `none` for no match.  The geocentric and orbital
sections are rendered only when `ra_g` is set; the last perihelion line
falls back to NaN text when the field is unset. -/
def orbitReprE (ops : MathOps) (fmt : ℚ → String) (fmtInt : ℤ → String)
    (d2j : ℚ → ℚ) (shower : ℚ → ℚ → ℚ → ℚ → Option (ℤ × String))
    (o : Orbit) (uncertainties : Option Unc) (v_init_ht : Option ℚ) :
    Except String String := do
  let head ←
    if o.ra_g.isSome then do
      let jdd ← getQE o.jd_dyn
      let lst ← getQE o.lst_ref
      pure ("  JD dynamic   = " ++ fmt jdd ++ " \n  LST apparent = " ++ fmt lst ++ " deg\n")
    else pure ("")
  let rav ← getQE o.ra
  let decv ← getQE o.dec
  let azv ← getQE o.azimuth_apparent
  let elv ← getQE o.elevation_apparent
  let vav ← getQE o.v_avg
  let viv ← getQE o.v_init
  let v_init_ht_str :=
    match v_init_ht with
    | some h => " (average above " ++ fmt h ++ " km)"
    | none => ""
  let s1 :=
    "Radiant (apparent in ECI which includes Earth rotation, epoch of date):\n"
    ++ "  R.A.      = " ++ fmt rav ++ uncer ops fmt uncertainties ("ra") 1 true ++ " deg\n"
    ++ "  Dec       = " ++ fmt decv ++ uncer ops fmt uncertainties ("dec") 1 true ++ " deg\n"
    ++ "  Azimuth   = " ++ fmt azv
      ++ uncer ops fmt uncertainties ("azimuth_apparent") 1 true ++ " deg\n"
    ++ "  Elevation = " ++ fmt elv
      ++ uncer ops fmt uncertainties ("elevation_apparent") 1 true ++ " deg\n"
    ++ "  Vavg      = " ++ fmt (vav / 1000)
      ++ uncer ops fmt uncertainties ("v_avg") (1 / 1000) false ++ " km/s\n"
    ++ "  Vinit     = " ++ fmt (viv / 1000)
      ++ uncer ops fmt uncertainties ("v_init") (1 / 1000) false ++ " km/s"
      ++ v_init_ht_str ++ "\n"
  let ranv ← getQE o.ra_norot
  let decnv ← getQE o.dec_norot
  let aznv ← getQE o.azimuth_apparent_norot
  let elnv ← getQE o.elevation_apparent_norot
  let vanv ← getQE o.v_avg_norot
  let vinv ← getQE o.v_init_norot
  let s2 :=
    "Radiant (apparent ground-fixed, epoch of date):\n"
    ++ "  R.A.      = " ++ fmt ranv ++ uncer ops fmt uncertainties ("ra") 1 true ++ " deg\n"
    ++ "  Dec       = " ++ fmt decnv ++ uncer ops fmt uncertainties ("dec") 1 true ++ " deg\n"
    ++ "  Azimuth   = " ++ fmt aznv
      ++ uncer ops fmt uncertainties ("azimuth_apparent") 1 true ++ " deg\n"
    ++ "  Elevation = " ++ fmt elnv
      ++ uncer ops fmt uncertainties ("elevation_apparent") 1 true ++ " deg\n"
    ++ "  Vavg      = " ++ fmt (vanv / 1000)
      ++ uncer ops fmt uncertainties ("v_avg") (1 / 1000) false ++ " km/s\n"
    ++ "  Vinit     = " ++ fmt (vinv / 1000)
      ++ uncer ops fmt uncertainties ("v_init") (1 / 1000) false ++ " km/s"
      ++ v_init_ht_str ++ "\n"
  let tail ←
    if o.ra_g.isSome then do
      let ragv ← getQE o.ra_g
      let decgv ← getQE o.dec_g
      let vgv ← getQE o.v_g
      let vinfv ← getQE o.v_inf
      let zcv ← getQE o.zc
      let zgv ← getQE o.zg
      let lgv ← getQE o.L_g
      let bgv ← getQE o.B_g
      let vhv ← getQE o.v_h
      let lhv ← getQE o.L_h
      let bhv ← getQE o.B_h
      let vhx ← getQE o.v_h_x
      let vhy ← getQE o.v_h_y
      let vhz ← getQE o.v_h_z
      let lasu ← getQE o.la_sun
      let av ← getQE o.a
      let ev ← getQE o.e
      let iv ← getQE o.i
      let periv ← getQE o.peri
      let nodev ← getQE o.node
      let piv ← getQE o.pi
      let qv ← getQE o.q
      let fv ← getQE o.true_anomaly
      let mnv ← getQE o.mean_anomaly
      let qqv ← getQE o.Q
      let nv ← getQE o.n
      let tv ← getQE o.T
      let tjv ← getQE o.Tj
      let lpLine :=
        match o.last_perihelion with
        | some lp =>
          "  Last perihelion JD = " ++ fmt (d2j lp)
            ++ uncer ops fmt uncertainties ("last_perihelion") 1 false ++ "\n"
        | none => "  Last perihelion JD = NaN \n"
      let showerLines :=
        match shower lasu lgv bgv vgv with
        | none =>
          "  IAU No.  = " ++ fmtInt (-1) ++ "\n" ++ "  IAU code = " ++ "..." ++ "\n"
        | some p =>
          "  IAU No.  = " ++ fmtInt p.1 ++ "\n" ++ "  IAU code = " ++ p.2 ++ "\n"
      pure ("Radiant (geocentric, J2000):\n"
        ++ "  R.A.   = " ++ fmt ragv ++ uncer ops fmt uncertainties ("ra_g") 1 true ++ " deg\n"
        ++ "  Dec    = " ++ fmt decgv ++ uncer ops fmt uncertainties ("dec_g") 1 true ++ " deg\n"
        ++ "  Vg     = " ++ fmt (vgv / 1000)
          ++ uncer ops fmt uncertainties ("v_g") (1 / 1000) false ++ " km/s\n"
        ++ "  Vinf   = " ++ fmt (vinfv / 1000)
          ++ uncer ops fmt uncertainties ("v_inf") (1 / 1000) false ++ " km/s\n"
        ++ "  Zc     = " ++ fmt zcv ++ uncer ops fmt uncertainties ("zc") 1 true ++ " deg\n"
        ++ "  Zg     = " ++ fmt zgv ++ uncer ops fmt uncertainties ("zg") 1 true ++ " deg\n"
        ++ "Radiant (ecliptic geocentric, J2000):\n"
        ++ "  Lg     = " ++ fmt lgv ++ uncer ops fmt uncertainties ("L_g") 1 true ++ " deg\n"
        ++ "  Bg     = " ++ fmt bgv ++ uncer ops fmt uncertainties ("B_g") 1 true ++ " deg\n"
        ++ "  Vh     = " ++ fmt (vhv / 1000)
          ++ uncer ops fmt uncertainties ("v_h") (1 / 1000) false ++ " km/s\n"
        ++ "Radiant (ecliptic heliocentric, J2000):\n"
        ++ "  Lh     = " ++ fmt lhv ++ uncer ops fmt uncertainties ("L_h") 1 true ++ " deg\n"
        ++ "  Bh     = " ++ fmt bhv ++ uncer ops fmt uncertainties ("B_h") 1 true ++ " deg\n"
        ++ "  Vh_x   = " ++ fmt vhx ++ uncer ops fmt uncertainties ("v_h_x") 1 false ++ " km/s\n"
        ++ "  Vh_y   = " ++ fmt vhy ++ uncer ops fmt uncertainties ("v_h_y") 1 false ++ " km/s\n"
        ++ "  Vh_z   = " ++ fmt vhz ++ uncer ops fmt uncertainties ("v_h_z") 1 false ++ " km/s\n"
        ++ "Orbit:\n"
        ++ "  La Sun = " ++ fmt lasu ++ uncer ops fmt uncertainties ("la_sun") 1 true ++ " deg\n"
        ++ "  a      = " ++ fmt av ++ uncer ops fmt uncertainties ("a") 1 false ++ " AU\n"
        ++ "  e      = " ++ fmt ev ++ uncer ops fmt uncertainties ("e") 1 false ++ "\n"
        ++ "  i      = " ++ fmt iv ++ uncer ops fmt uncertainties ("i") 1 true ++ " deg\n"
        ++ "  peri   = " ++ fmt periv ++ uncer ops fmt uncertainties ("peri") 1 true ++ " deg\n"
        ++ "  node   = " ++ fmt nodev ++ uncer ops fmt uncertainties ("node") 1 true ++ " deg\n"
        ++ "  Pi     = " ++ fmt piv ++ uncer ops fmt uncertainties ("pi") 1 true ++ " deg\n"
        ++ "  q      = " ++ fmt qv ++ uncer ops fmt uncertainties ("q") 1 false ++ " AU\n"
        ++ "  f      = " ++ fmt fv
          ++ uncer ops fmt uncertainties ("true_anomaly") 1 true ++ " deg\n"
        ++ "  M      = " ++ fmt mnv
          ++ uncer ops fmt uncertainties ("mean_anomaly") 1 true ++ " deg\n"
        ++ "  Q      = " ++ fmt qqv ++ uncer ops fmt uncertainties ("Q") 1 false ++ " AU\n"
        ++ "  n      = " ++ fmt nv ++ uncer ops fmt uncertainties ("n") 1 true ++ " deg/day\n"
        ++ "  T      = " ++ fmt tv ++ uncer ops fmt uncertainties ("T") 1 false ++ " years\n"
        ++ lpLine
        ++ "  Tj     = " ++ fmt tjv ++ uncer ops fmt uncertainties ("Tj") 1 false ++ "\n"
        ++ "Shower association:\n"
        ++ showerLines)
    else pure ("")
  pure (head ++ s1 ++ s2 ++ tail)

/-- Both apparent radiant families of a result are set. -/
def apparentSet (o : Orbit) : Prop :=
  o.ra.isSome ∧ o.dec.isSome ∧ o.azimuth_apparent.isSome ∧
  o.elevation_apparent.isSome ∧ o.v_avg.isSome ∧ o.v_init.isSome ∧
  o.ra_norot.isSome ∧ o.dec_norot.isSome ∧ o.azimuth_apparent_norot.isSome ∧
  o.elevation_apparent_norot.isSome ∧ o.v_avg_norot.isSome ∧ o.v_init_norot.isSome

instance (o : Orbit) : Decidable (apparentSet o) := by
  unfold apparentSet
  infer_instance

/-- First half of the geocentric and heliocentric family that the report
formats unconditionally once the geocentric radiant is set. -/
def orbitalSetA (o : Orbit) : Prop :=
  o.jd_dyn.isSome ∧ o.lst_ref.isSome ∧ o.dec_g.isSome ∧ o.v_g.isSome ∧
  o.v_inf.isSome ∧ o.zc.isSome ∧ o.zg.isSome ∧ o.L_g.isSome ∧ o.B_g.isSome ∧
  o.v_h.isSome ∧ o.L_h.isSome ∧ o.B_h.isSome ∧ o.v_h_x.isSome ∧
  o.v_h_y.isSome ∧ o.v_h_z.isSome

instance (o : Orbit) : Decidable (orbitalSetA o) := by
  unfold orbitalSetA
  infer_instance

/-- Second half of the geocentric and heliocentric family that the report
formats unconditionally once the geocentric radiant is set. -/
def orbitalSetB (o : Orbit) : Prop :=
  o.la_sun.isSome ∧ o.a.isSome ∧ o.e.isSome ∧ o.i.isSome ∧ o.peri.isSome ∧
  o.node.isSome ∧ o.pi.isSome ∧ o.q.isSome ∧ o.true_anomaly.isSome ∧
  o.mean_anomaly.isSome ∧ o.Q.isSome ∧ o.n.isSome ∧ o.T.isSome ∧ o.Tj.isSome

instance (o : Orbit) : Decidable (orbitalSetB o) := by
  unfold orbitalSetB
  infer_instance

/-- Populated result in the sense of the design document: both apparent
radiant families are set, and when the geocentric radiant is set (the
computed case) the whole geocentric and heliocentric family that the report
formats unconditionally is set as well. -/
def populatedOrbit (o : Orbit) : Prop :=
  apparentSet o ∧ (o.ra_g.isSome → (orbitalSetA o ∧ orbitalSetB o))

instance (o : Orbit) : Decidable (populatedOrbit o) := by
  unfold populatedOrbit
  infer_instance

/-- Trivial interpretation of the primitive block, used to evaluate the
embedding on concrete inputs. -/
def zOps : MathOps :=
  { sqrt := fun x => x
    sin := fun _ => 0
    cos := fun _ => 0
    tan := fun _ => 0
    arccos := fun _ => 0
    arctan2 := fun _ _ => 0
    pi := 3 }

/-- Trivial interpretation of the collaborator block, used to evaluate the
embedding on concrete inputs. -/
def zCollab : Collab :=
  { jd2DynamicalTimeJD := fun x => x
    cartesian2Geo := fun _ _ _ _ => (0, 0, 0)
    altAz2RADec := fun _ _ _ _ _ => (0, 0)
    raDec2AltAz := fun _ _ _ _ _ => (0, 0)
    eci2RaDec := fun _ => (0, 0)
    jd2LST := fun _ _ => 0
    equatorialCoordPrecession := fun _ _ a b => (a, b)
    raDec2Ecliptic := fun _ a b => (a, b)
    cartesianToSpherical := fun _ => (0, 0, 0)
    sphericalToCartesian := fun _ _ _ => ⟨0, 0, 0⟩
    earthPosVel := fun _ => (⟨1, 0, 0⟩, ⟨2, 0, 0⟩)
    rotateVector := fun v _ _ => v
    eclipticToRectangularVelocityVect := fun _ _ _ => ⟨0, 0, 0⟩
    correctedEclipticCoord := fun _ _ _ _ => (0, 0, ⟨0, 0, 0⟩)
    jd2SolLonJPL := fun _ => 0
    jd2Date := fun x => x
    J2000_days := 0
    J2000_OBLIQUITY := 0
    SUN_MU := 1
    AU := 1
    G := 1
    SUN_MASS := 1
    SIDEREAL_YEAR := 1 }

/-- Concrete input whose corrected initial velocity exceeds the local
escape velocity under the trivial interpretation, and whose resulting
semi-major axis is negative (a hyperbolic solution). -/
def inpFeasible : Inp :=
  ⟨zCollab, zOps, ⟨1, 0, 0⟩, 100, 50, ⟨10 ^ 7, 0, 0⟩, 0, false, true, false⟩

/-- Concrete input whose corrected initial velocity does not exceed the
local escape velocity under the trivial interpretation. -/
def inpInfeasible : Inp :=
  ⟨zCollab, zOps, ⟨1, 0, 0⟩, 1, 1, ⟨10 ^ 7, 0, 0⟩, 0, false, true, false⟩

/-- Concrete input with the initial point as reference and the rotation
correction requested. -/
def inpTT : Inp :=
  ⟨zCollab, zOps, ⟨1, 0, 0⟩, 100, 50, ⟨10 ^ 7, 0, 0⟩, 0, false, true, true⟩

/-- Concrete input with the average point as reference and the rotation
correction requested. -/
def inpFT : Inp :=
  ⟨zCollab, zOps, ⟨1, 0, 0⟩, 100, 50, ⟨10 ^ 7, 0, 0⟩, 0, false, false, true⟩

/-- Concrete input with the average point as reference and no rotation
correction. -/
def inpFF : Inp :=
  ⟨zCollab, zOps, ⟨1, 0, 0⟩, 100, 50, ⟨10 ^ 7, 0, 0⟩, 0, false, false, false⟩

/-- Concrete populated result with the apparent families set and the
geocentric radiant unset. -/
def sampleOrb : Orbit :=
  { ra := some 0
    dec := some 0
    azimuth_apparent := some 0
    elevation_apparent := some 0
    v_avg := some 0
    v_init := some 0
    ra_norot := some 0
    dec_norot := some 0
    azimuth_apparent_norot := some 0
    elevation_apparent_norot := some 0
    v_avg_norot := some 0
    v_init_norot := some 0 }

theorem kepInOf_ops (I : Inp) : (kepInOf I).ops = I.ops := rfl

theorem kepInOf_meteor_pos (I : Inp) : (kepInOf I).meteor_pos = meteorPos I := rfl

theorem kepInOf_v_h (I : Inp) : (kepInOf I).v_h = vH I := rfl

theorem calcOrbit_infeasible (I : Inp) (h : ¬ feasible I) : calcOrbit I = orbBase I := by
  unfold calcOrbit
  rw [if_neg h]

theorem calcOrbit_of_feasible (I : Inp) (h : feasible I) : calcOrbit I = orbFeasible I := by
  unfold calcOrbit
  rw [if_pos h]

theorem Vec3_add_def (a b : Vec3) : a + b = ⟨a.x + b.x, a.y + b.y, a.z + b.z⟩ := rfl

theorem Vec3_sub_def (a b : Vec3) : a - b = ⟨a.x - b.x, a.y - b.y, a.z - b.z⟩ := rfl

theorem feasible_inpFeasible : feasible inpFeasible := by
  show vInitCorr inpFeasible ^ 2 > escVelSq inpFeasible
  have h1 : vInitCorr inpFeasible = 100 := rfl
  rw [h1]
  norm_num [escVelSq, vectMag, inpFeasible, zOps]

theorem not_feasible_inpInfeasible : ¬ feasible inpInfeasible := by
  show ¬ (vInitCorr inpInfeasible ^ 2 > escVelSq inpInfeasible)
  have h1 : vInitCorr inpInfeasible = 1 := rfl
  rw [h1]
  norm_num [escVelSq, vectMag, inpInfeasible, zOps]

theorem meteorPos_inpFeasible : meteorPos inpFeasible = ⟨1, 0, 0⟩ := by
  norm_num [meteorPos, earthPosEq, earthPos, eciRefJ, divV, Vec3_add_def, jdDyn,
    inpFeasible, zCollab]

theorem vH_inpFeasible : vH inpFeasible = ⟨2, 0, 0⟩ := by
  norm_num [vH, earthVel, Vec3_add_def, jdDyn, inpFeasible, zCollab]

theorem a_neg_inpFeasible : aOf (kepInOf inpFeasible) < 0 := by
  have h1 : aOf (kepInOf inpFeasible) =
      -1 / (2 * (vectMag zOps (vH inpFeasible) ^ 2 / 2
        - 1 / vectMag zOps (meteorPos inpFeasible)) * 1) := rfl
  rw [h1, meteorPos_inpFeasible, vH_inpFeasible]
  norm_num [vectMag, zOps]

theorem ecc_one_inpFeasible : eccOf (kepInOf inpFeasible) = 1 := by
  have h1 : eccOf (kepInOf inpFeasible) =
      vectMag zOps (divV (crossV (vH inpFeasible)
          (crossV (meteorPos inpFeasible) (vH inpFeasible))) 1
        - vectNorm zOps (meteorPos inpFeasible)) := rfl
  rw [h1, meteorPos_inpFeasible, vH_inpFeasible]
  norm_num [vectMag, vectNorm, divV, crossV, Vec3_sub_def, zOps]

theorem dt_none_inpFeasible : dtPerihelionOf (kepInOf inpFeasible) = none := by
  unfold dtPerihelionOf
  rw [if_pos a_neg_inpFeasible]

theorem pi_pos_inpFeasible : 0 < inpFeasible.ops.pi := by
  norm_num [inpFeasible, zOps]

/-- C9: when the corrected initial velocity does not exceed the local
escape velocity, the reference geometry fields `jd_dyn` and `lst_ref` of
the returned result are left unset, even though the dynamical Julian date
is computed on every call; both fields are assigned only inside the
feasible branch, where they receive the computed dynamical date and local
sidereal time. -/
theorem C9_reference_geometry_gating (I : Inp) :
    (¬ feasible I → (calcOrbit I).jd_dyn = none ∧ (calcOrbit I).lst_ref = none) ∧
    (feasible I →
      (calcOrbit I).jd_dyn = some (jdDyn I) ∧ (calcOrbit I).lst_ref = some (lstRef I)) := by
  constructor
  · intro h
    rw [calcOrbit_infeasible I h]
    exact ⟨rfl, rfl⟩
  · intro h
    rw [calcOrbit_of_feasible I h]
    exact ⟨rfl, rfl⟩

/-- C9 witness: the concrete infeasible input leaves `jd_dyn` and
`lst_ref` unset, and the concrete feasible input sets them. -/
theorem C9_witness :
    (¬ feasible inpInfeasible ∧
      (calcOrbit inpInfeasible).jd_dyn = none ∧ (calcOrbit inpInfeasible).lst_ref = none) ∧
    (feasible inpFeasible ∧
      (calcOrbit inpFeasible).jd_dyn = some (jdDyn inpFeasible) ∧
      (calcOrbit inpFeasible).lst_ref = some (lstRef inpFeasible)) :=
  ⟨⟨not_feasible_inpInfeasible,
      (C9_reference_geometry_gating inpInfeasible).1 not_feasible_inpInfeasible⟩,
   ⟨feasible_inpFeasible,
      (C9_reference_geometry_gating inpFeasible).2 feasible_inpFeasible⟩⟩

/-- C5: for every computed (feasible) orbit the stored fields `node`,
`peri`, `true_anomaly` and `mean_anomaly` lie in the half open interval
from zero to two pi (for any interpretation of the primitive block on
which pi is positive, as it is for the float value of `np.pi`). -/
theorem C5_angle_normalization (I : Inp) (hfeas : feasible I) (hpi : 0 < I.ops.pi) :
    ∃ nd pr ta ma : ℚ,
      (calcOrbit I).node = some nd ∧ (calcOrbit I).peri = some pr ∧
      (calcOrbit I).true_anomaly = some ta ∧ (calcOrbit I).mean_anomaly = some ma ∧
      0 ≤ nd ∧ nd < 2 * I.ops.pi ∧ 0 ≤ pr ∧ pr < 2 * I.ops.pi ∧
      0 ≤ ta ∧ ta < 2 * I.ops.pi ∧ 0 ≤ ma ∧ ma < 2 * I.ops.pi := by
  rw [calcOrbit_of_feasible I hfeas]
  have h2pi : 0 < 2 * I.ops.pi := by linarith
  refine ⟨nodeOf (kepInOf I), periOf (kepInOf I), trueAnomOf (kepInOf I),
    meanAnomOf (kepInOf I), rfl, rfl, rfl, rfl, ?_, ?_, ?_, ?_, ?_, ?_, ?_, ?_⟩
  · exact pymod_nonneg _ _ h2pi
  · exact pymod_lt _ _ h2pi
  · exact pymod_nonneg _ _ h2pi
  · exact pymod_lt _ _ h2pi
  · exact pymod_nonneg _ _ h2pi
  · exact pymod_lt _ _ h2pi
  · exact pymod_nonneg _ _ h2pi
  · exact pymod_lt _ _ h2pi

/-- C5 witness: the normalization bounds at the concrete feasible input. -/
theorem C5_witness :
    feasible inpFeasible ∧
    ∃ nd pr ta ma : ℚ,
      (calcOrbit inpFeasible).node = some nd ∧ (calcOrbit inpFeasible).peri = some pr ∧
      (calcOrbit inpFeasible).true_anomaly = some ta ∧
      (calcOrbit inpFeasible).mean_anomaly = some ma ∧
      0 ≤ nd ∧ nd < 2 * inpFeasible.ops.pi ∧ 0 ≤ pr ∧ pr < 2 * inpFeasible.ops.pi ∧
      0 ≤ ta ∧ ta < 2 * inpFeasible.ops.pi ∧ 0 ≤ ma ∧ ma < 2 * inpFeasible.ops.pi :=
  ⟨feasible_inpFeasible,
    C5_angle_normalization inpFeasible feasible_inpFeasible pi_pos_inpFeasible⟩

/-- C10: for every computed (feasible) orbit the longitude of perihelion
field equals the sum of the stored node and argument of perihelion reduced
modulo two pi, and therefore also lies in the half open interval from zero
to two pi whenever pi is positive. -/
theorem C10_pi_longitude (I : Inp) (hfeas : feasible I) (hpi : 0 < I.ops.pi) :
    (calcOrbit I).node = some (nodeOf (kepInOf I)) ∧
    (calcOrbit I).peri = some (periOf (kepInOf I)) ∧
    (calcOrbit I).pi =
      some (pymod (nodeOf (kepInOf I) + periOf (kepInOf I)) (2 * I.ops.pi)) ∧
    0 ≤ pymod (nodeOf (kepInOf I) + periOf (kepInOf I)) (2 * I.ops.pi) ∧
    pymod (nodeOf (kepInOf I) + periOf (kepInOf I)) (2 * I.ops.pi) < 2 * I.ops.pi := by
  rw [calcOrbit_of_feasible I hfeas]
  have h2pi : 0 < 2 * I.ops.pi := by linarith
  exact ⟨rfl, rfl, rfl, pymod_nonneg _ _ h2pi, pymod_lt _ _ h2pi⟩

/-- C10 witness: the longitude of perihelion relation at the concrete
feasible input. -/
theorem C10_witness :
    feasible inpFeasible ∧
    (calcOrbit inpFeasible).pi =
      some (pymod (nodeOf (kepInOf inpFeasible) + periOf (kepInOf inpFeasible))
        (2 * inpFeasible.ops.pi)) :=
  ⟨feasible_inpFeasible,
    (C10_pi_longitude inpFeasible feasible_inpFeasible pi_pos_inpFeasible).2.2.1⟩

/-- C3: for every computed (feasible) orbit the stored perihelion distance
equals `a*(1 - e)` whenever the eccentricity is not exactly one, equals
the angular momentum based expression when the eccentricity is exactly
one, and the stored aphelion distance equals `a*(1 + e)` in every case. -/
theorem C3_perihelion_aphelion (I : Inp) (hfeas : feasible I) :
    (calcOrbit I).a = some (aOf (kepInOf I)) ∧
    (calcOrbit I).e = some (eccOf (kepInOf I)) ∧
    (calcOrbit I).meteor_pos = some (meteorPos I) ∧
    (calcOrbit I).q = some (qOf (kepInOf I)) ∧
    (calcOrbit I).Q = some (QOf (kepInOf I)) ∧
    (eccOf (kepInOf I) ≠ 1 →
      qOf (kepInOf I) = aOf (kepInOf I) * (1 - eccOf (kepInOf I))) ∧
    (eccOf (kepInOf I) = 1 →
      qOf (kepInOf I) =
        (vectMag I.ops (meteorPos I) + dotV (eVect (kepInOf I)) (meteorPos I))
          / (1 + vectMag I.ops (eVect (kepInOf I)))) ∧
    QOf (kepInOf I) = aOf (kepInOf I) * (1 + eccOf (kepInOf I)) := by
  rw [calcOrbit_of_feasible I hfeas]
  refine ⟨rfl, rfl, rfl, rfl, rfl, ?_, ?_, rfl⟩
  · intro h
    unfold qOf
    rw [if_neg h]
  · intro h
    unfold qOf
    rw [if_pos h]
    rfl

/-- C3 witness: at the concrete feasible input the eccentricity is exactly
one, so the angular momentum based perihelion formula is exercised. -/
theorem C3_witness :
    feasible inpFeasible ∧ eccOf (kepInOf inpFeasible) = 1 ∧
    qOf (kepInOf inpFeasible) =
      (vectMag inpFeasible.ops (meteorPos inpFeasible)
        + dotV (eVect (kepInOf inpFeasible)) (meteorPos inpFeasible))
        / (1 + vectMag inpFeasible.ops (eVect (kepInOf inpFeasible))) :=
  ⟨feasible_inpFeasible, ecc_one_inpFeasible,
    (C3_perihelion_aphelion inpFeasible feasible_inpFeasible).2.2.2.2.2.2.1
      ecc_one_inpFeasible⟩

/-- C7: inside the feasible branch the last perihelion date is left unset
exactly when the days-since-perihelion value is NaN (none in the model,
which happens precisely for a negative semi-major axis, where the numpy
float power produces NaN), and is set to the calendar date of the
dynamical date minus the offset otherwise; no exception is raised in
either case. -/
theorem C7_last_perihelion (I : Inp) (hfeas : feasible I) :
    (dtPerihelionOf (kepInOf I) = none → (calcOrbit I).last_perihelion = none) ∧
    (∀ d : ℚ, dtPerihelionOf (kepInOf I) = some d →
      (calcOrbit I).last_perihelion = some (I.C.jd2Date (jdDyn I - d))) ∧
    (dtPerihelionOf (kepInOf I) = none ↔ aOf (kepInOf I) < 0) := by
  rw [calcOrbit_of_feasible I hfeas]
  refine ⟨?_, ?_, ?_⟩
  · intro h
    show ((dtPerihelionOf (kepInOf I)).map (fun dt => I.C.jd2Date (jdDyn I - dt))) = none
    rw [h]
    rfl
  · intro d h
    show ((dtPerihelionOf (kepInOf I)).map (fun dt => I.C.jd2Date (jdDyn I - dt)))
      = some (I.C.jd2Date (jdDyn I - d))
    rw [h]
    rfl
  · constructor
    · intro h
      by_contra ha
      unfold dtPerihelionOf at h
      rw [if_neg ha] at h
      exact Option.noConfusion h
    · intro ha
      unfold dtPerihelionOf
      rw [if_pos ha]

/-- C7 witness: the concrete feasible input has a negative semi-major
axis, the offset is NaN and the last perihelion date is unset. -/
theorem C7_witness :
    feasible inpFeasible ∧ dtPerihelionOf (kepInOf inpFeasible) = none ∧
    (calcOrbit inpFeasible).last_perihelion = none :=
  ⟨feasible_inpFeasible, dt_none_inpFeasible,
    (C7_last_perihelion inpFeasible feasible_inpFeasible).1 dt_none_inpFeasible⟩

/-- C2: the corrected scalar initial velocity stored as the velocity at
infinity equals the magnitude of the corrected reference vector when the
reference point is the initial point and the rotation correction is
requested, the unchanged `v_init` when it is not requested, the magnitude
of the corrected vector plus `v_init` minus `v_avg` when the reference
point is the average point with rotation correction, and the unchanged
`v_init` when the reference point is the average point without it. -/
theorem C2_initial_velocity_correction (I : Inp) :
    (calcOrbit I).v_inf = some (vInitCorr I) ∧
    (I.reference_init = true → I.rotation_correction = true →
      vInitCorr I = vectMag I.ops (vRefCorr I)) ∧
    (I.reference_init = true → I.rotation_correction = false →
      vInitCorr I = I.v_init) ∧
    (I.reference_init = false → I.rotation_correction = true →
      vInitCorr I = vectMag I.ops (vRefCorr I) + I.v_init - I.v_avg) ∧
    (I.reference_init = false → I.rotation_correction = false →
      vInitCorr I = I.v_init) := by
  refine ⟨?_, ?_, ?_, ?_, ?_⟩
  · unfold calcOrbit
    split <;> rfl
  all_goals intro h1 h2
  all_goals simp [vInitCorr, h1, h2]

/-- C2 witness: the four mode combinations evaluated at concrete inputs. -/
theorem C2_witness :
    vInitCorr inpTT = vectMag inpTT.ops (vRefCorr inpTT) ∧
    vInitCorr inpFeasible = inpFeasible.v_init ∧
    vInitCorr inpFT = vectMag inpFT.ops (vRefCorr inpFT) + inpFT.v_init - inpFT.v_avg ∧
    vInitCorr inpFF = inpFF.v_init :=
  ⟨(C2_initial_velocity_correction inpTT).2.1 rfl rfl,
   (C2_initial_velocity_correction inpFeasible).2.2.1 rfl rfl,
   (C2_initial_velocity_correction inpFT).2.2.2.1 rfl rfl,
   (C2_initial_velocity_correction inpFF).2.2.2.2 rfl rfl⟩

/-- C4: if the ascending node vector has zero magnitude the stored node is
zero and the argument of perihelion uses the fallback expression; if it is
nonzero the node is the arctangent of its components and the argument of
perihelion uses the dot product expression, reflected when the z component
of the eccentricity vector is negative; in every case both stored angles
are the unreduced values taken modulo two pi. -/
theorem C4_node_peri (I : Inp) (hfeas : feasible I) :
    ((calcOrbit I).node = some (pymod (node0Of (kepInOf I)) (2 * I.ops.pi)) ∧
     (calcOrbit I).peri = some (pymod (peri0Of (kepInOf I)) (2 * I.ops.pi))) ∧
    (vectMag I.ops (nVect (kepInOf I)) = 0 →
      (calcOrbit I).node = some 0 ∧
      (calcOrbit I).peri = some (pymod (I.ops.arccos ((eVect (kepInOf I)).x
        / vectMag I.ops (eVect (kepInOf I)))) (2 * I.ops.pi))) ∧
    (vectMag I.ops (nVect (kepInOf I)) ≠ 0 →
      (calcOrbit I).node = some (pymod
        (I.ops.arctan2 (nVect (kepInOf I)).y (nVect (kepInOf I)).x) (2 * I.ops.pi)) ∧
      (calcOrbit I).peri = some (pymod (if (eVect (kepInOf I)).z < 0 then
          2 * I.ops.pi - I.ops.arccos (dotV (nVect (kepInOf I)) (eVect (kepInOf I))
            / (vectMag I.ops (nVect (kepInOf I)) * vectMag I.ops (eVect (kepInOf I))))
        else I.ops.arccos (dotV (nVect (kepInOf I)) (eVect (kepInOf I))
            / (vectMag I.ops (nVect (kepInOf I)) * vectMag I.ops (eVect (kepInOf I)))))
        (2 * I.ops.pi))) := by
  rw [calcOrbit_of_feasible I hfeas]
  refine ⟨⟨rfl, rfl⟩, ?_, ?_⟩
  · intro h
    constructor
    · show some (nodeOf (kepInOf I)) = some 0
      unfold nodeOf node0Of
      rw [kepInOf_ops, if_pos h, pymod_zero]
    · show some (periOf (kepInOf I)) = some _
      unfold periOf peri0Of
      rw [kepInOf_ops, if_neg (fun hc => hc h)]
  · intro h
    constructor
    · show some (nodeOf (kepInOf I)) = some _
      unfold nodeOf node0Of
      rw [kepInOf_ops, if_neg h]
    · show some (periOf (kepInOf I)) = some _
      unfold periOf peri0Of
      rw [kepInOf_ops, if_pos h]

theorem nvect_zero_inpFeasible :
    vectMag inpFeasible.ops (nVect (kepInOf inpFeasible)) = 0 := by
  have h1 : vectMag inpFeasible.ops (nVect (kepInOf inpFeasible)) =
      vectMag zOps (crossV ⟨0, 0, 1⟩
        (crossV (meteorPos inpFeasible) (vH inpFeasible))) := rfl
  rw [h1, meteorPos_inpFeasible, vH_inpFeasible]
  norm_num [vectMag, crossV, zOps]

/-- C4 witness: the concrete feasible input yields a vanishing node vector
and the node is stored as zero. -/
theorem C4_witness :
    feasible inpFeasible ∧
    vectMag inpFeasible.ops (nVect (kepInOf inpFeasible)) = 0 ∧
    (calcOrbit inpFeasible).node = some 0 :=
  ⟨feasible_inpFeasible, nvect_zero_inpFeasible,
    ((C4_node_peri inpFeasible feasible_inpFeasible).2.1 nvect_zero_inpFeasible).1⟩

/-- C6: applying the stations-fixed rotation subtraction and then the
no-rotation addition with the same east rotation components recovers the
original raw reference velocity vector exactly, and both operations leave
the z component unchanged. -/
theorem C6_rotation_symmetry (ops : MathOps) (v : Vec3) (v_e ra_east : ℚ) :
    rotCorrAdd ops (rotCorrSub ops v v_e ra_east) v_e ra_east = v ∧
    (rotCorrSub ops v v_e ra_east).z = v.z ∧
    (rotCorrAdd ops v v_e ra_east).z = v.z := by
  refine ⟨?_, rfl, rfl⟩
  cases v with
  | mk x y z =>
    simp [rotCorrSub, rotCorrAdd]

/-- C1 (amended): when the corrected initial velocity does not strictly
exceed the local escape velocity the call returns normally and every field
of the geocentric and heliocentric family is left unset, except that the
velocity at infinity is always assigned the corrected initial velocity
(the source sets it before the gate); when the corrected velocity strictly
exceeds the local escape velocity every field of the family is set, except
that the last perihelion date is set exactly when the days since
perihelion value is not NaN, that is when the semi-major axis is not
negative. -/
theorem C1_escape_gating (I : Inp) :
    (¬ feasible I →
      (calcOrbit I).zc = none ∧ (calcOrbit I).zg = none ∧
      (calcOrbit I).v_g = none ∧ (calcOrbit I).ra_g = none ∧
      (calcOrbit I).dec_g = none ∧ (calcOrbit I).L_g = none ∧
      (calcOrbit I).B_g = none ∧ (calcOrbit I).meteor_pos = none ∧
      (calcOrbit I).v_h = none ∧ (calcOrbit I).v_h_x = none ∧
      (calcOrbit I).v_h_y = none ∧ (calcOrbit I).v_h_z = none ∧
      (calcOrbit I).L_h = none ∧ (calcOrbit I).B_h = none ∧
      (calcOrbit I).la_sun = none ∧ (calcOrbit I).a = none ∧
      (calcOrbit I).e = none ∧ (calcOrbit I).i = none ∧
      (calcOrbit I).peri = none ∧ (calcOrbit I).node = none ∧
      (calcOrbit I).pi = none ∧ (calcOrbit I).q = none ∧
      (calcOrbit I).Q = none ∧ (calcOrbit I).true_anomaly = none ∧
      (calcOrbit I).eccentric_anomaly = none ∧ (calcOrbit I).mean_anomaly = none ∧
      (calcOrbit I).last_perihelion = none ∧ (calcOrbit I).n = none ∧
      (calcOrbit I).T = none ∧ (calcOrbit I).Tj = none ∧
      (calcOrbit I).v_inf = some (vInitCorr I)) ∧
    (feasible I →
      (calcOrbit I).zc.isSome ∧ (calcOrbit I).zg.isSome ∧
      (calcOrbit I).v_g.isSome ∧ (calcOrbit I).ra_g.isSome ∧
      (calcOrbit I).dec_g.isSome ∧ (calcOrbit I).L_g.isSome ∧
      (calcOrbit I).B_g.isSome ∧ (calcOrbit I).meteor_pos.isSome ∧
      (calcOrbit I).v_h.isSome ∧ (calcOrbit I).v_h_x.isSome ∧
      (calcOrbit I).v_h_y.isSome ∧ (calcOrbit I).v_h_z.isSome ∧
      (calcOrbit I).L_h.isSome ∧ (calcOrbit I).B_h.isSome ∧
      (calcOrbit I).la_sun.isSome ∧ (calcOrbit I).a.isSome ∧
      (calcOrbit I).e.isSome ∧ (calcOrbit I).i.isSome ∧
      (calcOrbit I).peri.isSome ∧ (calcOrbit I).node.isSome ∧
      (calcOrbit I).pi.isSome ∧ (calcOrbit I).q.isSome ∧
      (calcOrbit I).Q.isSome ∧ (calcOrbit I).true_anomaly.isSome ∧
      (calcOrbit I).eccentric_anomaly.isSome ∧ (calcOrbit I).mean_anomaly.isSome ∧
      (calcOrbit I).n.isSome ∧ (calcOrbit I).T.isSome ∧ (calcOrbit I).Tj.isSome ∧
      (calcOrbit I).v_inf = some (vInitCorr I) ∧
      ((calcOrbit I).last_perihelion.isSome ↔ ¬ aOf (kepInOf I) < 0)) := by
  constructor
  · intro h
    rw [calcOrbit_infeasible I h]
    exact ⟨rfl, rfl, rfl, rfl, rfl, rfl, rfl, rfl, rfl, rfl, rfl, rfl, rfl, rfl, rfl,
      rfl, rfl, rfl, rfl, rfl, rfl, rfl, rfl, rfl, rfl, rfl, rfl, rfl, rfl, rfl, rfl⟩
  · intro h
    rw [calcOrbit_of_feasible I h]
    refine ⟨rfl, rfl, rfl, rfl, rfl, rfl, rfl, rfl, rfl, rfl, rfl, rfl, rfl, rfl, rfl,
      rfl, rfl, rfl, rfl, rfl, rfl, rfl, rfl, rfl, rfl, rfl, rfl, rfl, rfl, rfl, ?_⟩
    show ((dtPerihelionOf (kepInOf I)).map
      (fun dt => I.C.jd2Date (jdDyn I - dt))).isSome ↔ ¬ aOf (kepInOf I) < 0
    by_cases ha : aOf (kepInOf I) < 0
    · unfold dtPerihelionOf
      rw [if_pos ha]
      simp [ha]
    · unfold dtPerihelionOf
      rw [if_neg ha]
      simp [ha]

/-- C1 counterexample: the claim as stated fails in both directions at
concrete inputs: for a sub-escape input the velocity at infinity is set
rather than unset, and for a super-escape input with a hyperbolic
(negative) semi-major axis the last perihelion date is left unset rather
than set. -/
theorem C1_counterexample :
    (¬ feasible inpInfeasible ∧ (calcOrbit inpInfeasible).v_inf = some 1) ∧
    (feasible inpFeasible ∧ (calcOrbit inpFeasible).last_perihelion = none) := by
  refine ⟨⟨not_feasible_inpInfeasible, ?_⟩, ⟨feasible_inpFeasible, ?_⟩⟩
  · rw [calcOrbit_infeasible inpInfeasible not_feasible_inpInfeasible]
    rfl
  · rw [calcOrbit_of_feasible inpFeasible feasible_inpFeasible]
    show ((dtPerihelionOf (kepInOf inpFeasible)).map
      (fun dt => inpFeasible.C.jd2Date (jdDyn inpFeasible - dt))) = none
    rw [dt_none_inpFeasible]
    rfl

/-- C1 witness: the amended gating applied at the two concrete inputs. -/
theorem C1_witness :
    (¬ feasible inpInfeasible ∧ (calcOrbit inpInfeasible).a = none ∧
      (calcOrbit inpInfeasible).v_inf = some (vInitCorr inpInfeasible)) ∧
    (feasible inpFeasible ∧ (calcOrbit inpFeasible).a.isSome) := by
  have h1 := (C1_escape_gating inpInfeasible).1 not_feasible_inpInfeasible
  have h2 := (C1_escape_gating inpFeasible).2 feasible_inpFeasible
  exact ⟨⟨not_feasible_inpInfeasible,
      h1.2.2.2.2.2.2.2.2.2.2.2.2.2.2.2.1,
      h1.2.2.2.2.2.2.2.2.2.2.2.2.2.2.2.2.2.2.2.2.2.2.2.2.2.2.2.2.2.2⟩,
    ⟨feasible_inpFeasible, h2.2.2.2.2.2.2.2.2.2.2.2.2.2.2.2.1⟩⟩

/-- C8: the uncertainty suffix machinery never raises: the exception-aware
reading equals the pure rendering wrapped in the ok constructor for every
input, the suffix is the empty string whenever the uncertainty object does
not carry the attribute, the suffix is the empty string for every field
when no uncertainty object is given, and the whole report renders to an ok
value on every populated orbit, for every uncertainty object. -/
theorem C8_uncertainty_rendering :
    (∀ (ops : MathOps) (fmt : ℚ → String) (u : Option Unc) (sn : String)
       (multi : ℚ) (deg : Bool),
      uncerE ops fmt u sn multi deg = Except.ok (uncer ops fmt u sn multi deg)) ∧
    (∀ (ops : MathOps) (fmt : ℚ → String) (f : Unc) (sn : String)
       (multi : ℚ) (deg : Bool),
      f sn = none → uncer ops fmt (some f) sn multi deg = "") ∧
    (∀ (ops : MathOps) (fmt : ℚ → String) (sn : String) (multi : ℚ) (deg : Bool),
      uncer ops fmt none sn multi deg = "") ∧
    (∀ (ops : MathOps) (fmt : ℚ → String) (fmtInt : ℤ → String) (d2j : ℚ → ℚ)
       (shower : ℚ → ℚ → ℚ → ℚ → Option (ℤ × String)) (o : Orbit)
       (u : Option Unc) (vht : Option ℚ),
      populatedOrbit o →
      ∃ s : String, orbitReprE ops fmt fmtInt d2j shower o u vht = Except.ok s) := by
  refine ⟨?_, ?_, ?_, ?_⟩
  · intro ops fmt u sn multi deg
    cases u with
    | none => rfl
    | some f =>
      cases hfs : f sn with
      | none => simp [uncerE, uncer, getattrE, hfs]
      | some v => simp [uncerE, uncer, getattrE, hfs]
  · intro ops fmt f sn multi deg h
    simp [uncer, h]
  · intro ops fmt sn multi deg
    rfl
  · intro ops fmt fmtInt d2j shower o u vht hpop
    obtain ⟨happ, horb⟩ := hpop
    unfold apparentSet at happ
    obtain ⟨h1, h2, h3, h4, h5, h6, h7, h8, h9, h10, h11, h12⟩ := happ
    rw [Option.isSome_iff_exists] at h1 h2 h3 h4 h5 h6 h7 h8 h9 h10 h11 h12
    obtain ⟨a1, e1⟩ := h1
    obtain ⟨a2, e2⟩ := h2
    obtain ⟨a3, e3⟩ := h3
    obtain ⟨a4, e4⟩ := h4
    obtain ⟨a5, e5⟩ := h5
    obtain ⟨a6, e6⟩ := h6
    obtain ⟨a7, e7⟩ := h7
    obtain ⟨a8, e8⟩ := h8
    obtain ⟨a9, e9⟩ := h9
    obtain ⟨a10, e10⟩ := h10
    obtain ⟨a11, e11⟩ := h11
    obtain ⟨a12, e12⟩ := h12
    cases hrg : o.ra_g with
    | none =>
      simp only [orbitReprE, hrg, e1, e2, e3, e4, e5, e6, e7, e8, e9, e10, e11, e12]
      exact ⟨_, rfl⟩
    | some rg =>
      have hOrb := horb (by rw [hrg]; rfl)
      obtain ⟨hA, hB⟩ := hOrb
      unfold orbitalSetA at hA
      unfold orbitalSetB at hB
      obtain ⟨g1, g2, g3, g4, g5, g6, g7, g8, g9, g10, g11, g12, g13, g14, g15⟩ := hA
      obtain ⟨k1, k2, k3, k4, k5, k6, k7, k8, k9, k10, k11, k12, k13, k14⟩ := hB
      rw [Option.isSome_iff_exists] at g1 g2 g3 g4 g5 g6 g7 g8 g9 g10 g11 g12 g13 g14 g15
      rw [Option.isSome_iff_exists] at k1 k2 k3 k4 k5 k6 k7 k8 k9 k10 k11 k12 k13 k14
      obtain ⟨b1, f1⟩ := g1
      obtain ⟨b2, f2⟩ := g2
      obtain ⟨b3, f3⟩ := g3
      obtain ⟨b4, f4⟩ := g4
      obtain ⟨b5, f5⟩ := g5
      obtain ⟨b6, f6⟩ := g6
      obtain ⟨b7, f7⟩ := g7
      obtain ⟨b8, f8⟩ := g8
      obtain ⟨b9, f9⟩ := g9
      obtain ⟨b10, f10⟩ := g10
      obtain ⟨b11, f11⟩ := g11
      obtain ⟨b12, f12⟩ := g12
      obtain ⟨b13, f13⟩ := g13
      obtain ⟨b14, f14⟩ := g14
      obtain ⟨b15, f15⟩ := g15
      obtain ⟨c1, j1⟩ := k1
      obtain ⟨c2, j2⟩ := k2
      obtain ⟨c3, j3⟩ := k3
      obtain ⟨c4, j4⟩ := k4
      obtain ⟨c5, j5⟩ := k5
      obtain ⟨c6, j6⟩ := k6
      obtain ⟨c7, j7⟩ := k7
      obtain ⟨c8, j8⟩ := k8
      obtain ⟨c9, j9⟩ := k9
      obtain ⟨c10, j10⟩ := k10
      obtain ⟨c11, j11⟩ := k11
      obtain ⟨c12, j12⟩ := k12
      obtain ⟨c13, j13⟩ := k13
      obtain ⟨c14, j14⟩ := k14
      simp only [orbitReprE, hrg, e1, e2, e3, e4, e5, e6, e7, e8, e9, e10, e11, e12,
        f1, f2, f3, f4, f5, f6, f7, f8, f9, f10, f11, f12, f13, f14, f15,
        j1, j2, j3, j4, j5, j6, j7, j8, j9, j10, j11, j12, j13, j14]
      exact ⟨_, rfl⟩

/-- C8 witness: the report of a concrete populated orbit renders to an ok
value with no uncertainty object. -/
theorem C8_witness :
    populatedOrbit sampleOrb ∧
    ∃ s : String, orbitReprE zOps (fun _ => "") (fun _ => "") (fun x => x)
      (fun _ _ _ _ => none) sampleOrb none none = Except.ok s :=
  ⟨by decide, C8_uncertainty_rendering.2.2.2 zOps (fun _ => "") (fun _ => "")
    (fun x => x) (fun _ _ _ _ => none) sampleOrb none none (by decide)⟩
